import Mathlib

/-
Verification development for the `aicas` experiment pipeline
(`experiments.py`, `experiment_utils.py`).

The Python code is shallowly embedded:
* Python strings are `List Char` (`Str`); string operations used by the
  code (`str.find`, `str.split`, slicing, `in`, `int(...)`, f-strings,
  `str.lower`) are modelled as executable Lean functions with Python
  semantics.
* Python values that can be `None` are `Option _`; Python truthiness
  (`if x:`) is modelled explicitly (`None`/`0`/`""` falsy).
* Code that raises is modelled in `Except PyErr _`; `PyErr`
  distinguishes the exception class raised (`ValueError`,
  `IndexError`, `AssertionError`, `AttributeError`, `KeyError`).
* Filesystem, logging, SMTP transport and the external
  training/pruning/attack collaborators are outside the embedding;
  where a function's control flow depends on an external outcome the
  outcome is an explicit parameter.

All definitions are executable so that theorems about concrete inputs
close by `decide` / `rfl`.
-/

open List

abbrev Str := List Char

/-- Coerce a Lean string literal to the `List Char` representation of a
Python string. -/
def str (s : String) : Str := s.toList

/-- Python exception classes raised by the embedded code.  `valueError`
carries a short tag naming the field mentioned by the exception
message. -/
inductive PyErr where
  | valueError (field : Str)
  | indexError
  | assertionError
  | attributeError
  | keyError
deriving DecidableEq

instance {ε α : Type _} [DecidableEq ε] [DecidableEq α] : DecidableEq (Except ε α) :=
  fun a b =>
    match a, b with
    | .ok x, .ok y =>
      if h : x = y then .isTrue (by rw [h]) else .isFalse (by simp [h])
    | .error e, .error f =>
      if h : e = f then .isTrue (by rw [h]) else .isFalse (by simp [h])
    | .ok _, .error _ => .isFalse (by simp)
    | .error _, .ok _ => .isFalse (by simp)

/-- `true` iff the embedded computation returned normally (raised no
exception). -/
def exceptOk {e a : Type _} : Except e a → Bool
  | .ok _ => true
  | .error _ => false

/-- Python truthiness of an optional integer (`None` and `0` are
falsy). -/
def truthyInt : Option Int → Bool
  | none => false
  | some n => decide (n ≠ 0)

/-- Python truthiness of an optional string (`None` and `""` are
falsy). -/
def truthyStr : Option Str → Bool
  | none => false
  | some s => decide (s ≠ [])

/-- Decimal digits of a natural number, accumulator-based; the first
argument is fuel (`natToStr` passes `n` itself, which is enough since
`n` has at most `n` digits). -/
def natToStrAux : Nat → Nat → Str → Str
  | 0, n, acc => Char.ofNat (48 + n % 10) :: acc
  | fuel + 1, n, acc =>
    if n < 10 then Char.ofNat (48 + n) :: acc
    else natToStrAux fuel (n / 10) (Char.ofNat (48 + n % 10) :: acc)

/-- Decimal rendering of a natural number (Python `str(n)`). -/
def natToStr (n : Nat) : Str := natToStrAux n n []

/-- Decimal rendering of an integer (Python `str(i)` / f-string
interpolation of an `int`). -/
def intToStr (i : Int) : Str :=
  if i < 0 then '-' :: natToStr i.natAbs else natToStr i.natAbs

/-- F-string interpolation of an optional integer field: Python renders
`None` as the string `"None"`. -/
def optIntRepr : Option Int → Str
  | none => str "None"
  | some n => intToStr n

/-- Python `str.lower()` (the model types used are ASCII). -/
def pyLower (s : Str) : Str := s.map Char.toLower

/--
`check_folder_structure` (experiments.py:500-620), the path encoder:
builds the model folder name
`<model_type.lower()>[_<q>_quantization | _<prune>_<compression>_compression][_<finetune>_finetune_iterations]`.

Only the pure computation of the folder name and the validation
(`assert` statements, which raise `AssertionError`, and the
`model_type.lower()` call, which raises `AttributeError` when
`model_type` is `None`) are modelled; directory creation, the
"already exists" warning and the `DATAPATH` environment variable are
filesystem side effects outside the embedding.  The `attack` parameter
only derives extra sub-directories and does not affect the folder
name.  Parameter order matches the source.
-/
def check_folder_structure (experiment_number : Option Int) (dataset : Option Str)
    (model_type : Option Str) (quantize : Option Int) (prune : Option Str)
    (attack : Option Str) (finetune_epochs : Option Int) (compression : Option Int) :
    Except PyErr Str :=
  match model_type with
  | none => .error .attributeError
  | some mt =>
    let name0 := pyLower mt
    -- `if quantize: ... elif prune: <asserts> ...`
    let pruneBranch : Except PyErr Str :=
      match prune with
      | some p =>
        if p ≠ [] then
          match compression with
          | some c =>
            if 1 < c then
              match finetune_epochs with
              | some f =>
                if 0 ≤ f then
                  .ok (name0 ++ str "_" ++ p ++ str "_" ++ intToStr c ++ str "_compression")
                else .error .assertionError
              | none => .error .assertionError
            else .error .assertionError
          | none => .error .assertionError
        else .ok name0
      | none => .ok name0
    let afterQP : Except PyErr Str :=
      match quantize with
      | some q =>
        if q ≠ 0 then .ok (name0 ++ str "_" ++ intToStr q ++ str "_quantization")
        else pruneBranch
      | none => pruneBranch
    match afterQP with
    | .error e => .error e
    | .ok name1 =>
      -- `if finetune_epochs:` (0 and None are falsy: no segment appended)
      match finetune_epochs with
      | some f =>
        if f ≠ 0 then
          .ok (name1 ++ str "_" ++ intToStr f ++ str "_finetune_iterations")
        else .ok name1
      | none => .ok name1

example : check_folder_structure (some 0) (some (str "CIFAR10")) (some (str "VGG"))
    none (some (str "full")) none (some 10) (some 4)
    = .ok (str "vgg_full_4_compression_10_finetune_iterations") := by decide

example : check_folder_structure (some 1) (some (str "CIFAR10")) (some (str "VGG"))
    (some 8) none none none (some 1) = .ok (str "vgg_8_quantization") := by decide

/--
C6 counterexample: the claim states that *every* call to the path
encoder with `prune_method` set fails unless `prune_compression > 1`
and `finetune_epochs` is a present non-negative integer.  In the code
the validation sits in the `elif prune:` branch, so a truthy
`quantization` bypasses it entirely: here `prune_method = "L1"`,
`prune_compression = 1` (not `> 1`) and `finetune_epochs = None`, yet
encoding succeeds.
-/
theorem c6_quantization_bypasses_prune_validation :
    check_folder_structure (some 1) (some (str "CIFAR10")) (some (str "VGG"))
      (some 8) (some (str "L1")) none none (some 1)
      = .ok (str "vgg_8_quantization") := by decide

/--
C6 (amended): for every call to the path encoder with `prune_method`
set (truthy) and `quantization` not set (falsy), the call succeeds if
and only if `prune_compression` is a number greater than 1 and
`finetune_epochs` is a present non-negative integer; otherwise it
fails with the `AssertionError` raised by the validation.
-/
theorem c6_prune_validation_when_quantization_falsy
    (n : Option Int) (ds att : Option Str) (mt p : Str) (qu ft comp : Option Int)
    (hp : p ≠ []) (hq : truthyInt qu = false) :
    exceptOk (check_folder_structure n ds (some mt) qu (some p) att ft comp) = true
      ↔ ((∃ c, comp = some c ∧ 1 < c) ∧ (∃ f, ft = some f ∧ 0 ≤ f)) := by
  have hq' : qu = none ∨ qu = some 0 := by
    cases qu with
    | none => exact Or.inl rfl
    | some q =>
      right
      simp only [truthyInt, decide_eq_false_iff_not, Decidable.not_not] at hq
      simp [hq]
  have main : ∀ qv : Option Int, (qv = none ∨ qv = some 0) →
      (exceptOk (check_folder_structure n ds (some mt) qv (some p) att ft comp) = true
        ↔ ((∃ c, comp = some c ∧ 1 < c) ∧ (∃ f, ft = some f ∧ 0 ≤ f))) := by
    intro qv hqv
    cases comp with
    | none =>
      rcases hqv with h | h <;> subst h <;> cases ft <;>
        simp [check_folder_structure, hp, exceptOk]
    | some c =>
      cases ft with
      | none =>
        rcases hqv with h | h <;> subst h <;>
          simp [check_folder_structure, hp, exceptOk]
      | some f =>
        rcases hqv with h | h <;> subst h <;>
          · simp only [check_folder_structure, exceptOk]
            split_ifs <;> simp_all
  exact main qu hq'

/-- Witness for `c6_prune_validation_when_quantization_falsy` at a
concrete pruned configuration. -/
theorem c6_prune_validation_witness :
    exceptOk (check_folder_structure (some 0) (some (str "CIFAR10")) (some (str "VGG"))
      none (some (str "L1")) none (some 5) (some 4)) = true :=
  (c6_prune_validation_when_quantization_falsy (some 0) (some (str "CIFAR10")) none
      (str "VGG") (str "L1") none (some 5) (some 4) (by decide) (by decide)).mpr
    ⟨⟨4, rfl, by decide⟩, ⟨5, rfl, by decide⟩⟩

/--
C9 counterexample: with `prune_method = "L1"`, `prune_compression = 4`,
the claim states the folder name for `finetune_epochs = 0` is identical
to the one produced with `finetune_epochs` unset.  In the code,
`finetune_epochs = 0` encodes fine (to a name with no finetune
segment), but `finetune_epochs = None` fails the
`isinstance(finetune_epochs, int)` assertion, so no folder name is
produced at all for the unset case.
-/
theorem c9_finetune_none_with_prune_fails :
    check_folder_structure (some 1) (some (str "CIFAR10")) (some (str "VGG"))
      none (some (str "L1")) none (some 0) (some 4)
      = .ok (str "vgg_L1_4_compression") ∧
    check_folder_structure (some 1) (some (str "CIFAR10")) (some (str "VGG"))
      none (some (str "L1")) none none (some 4)
      = .error .assertionError := by decide

/--
C9 (amended): for every configuration with `prune_method` set,
`prune_compression > 1` and `finetune_epochs = 0`, path encoding
succeeds and the folder name carries no finetune segment (it is
exactly `<model_type.lower()>_<prune>_<compression>_compression`);
the same configuration with `finetune_epochs` unset does not produce
that same name — it is rejected by the encode validation with an
`AssertionError`.
-/
theorem c9_finetune_zero_vs_unset
    (n : Option Int) (ds att : Option Str) (mt p : Str) (c : Int)
    (hp : p ≠ []) (hc : 1 < c) :
    check_folder_structure n ds (some mt) none (some p) att (some 0) (some c)
      = .ok (pyLower mt ++ str "_" ++ p ++ str "_" ++ intToStr c ++ str "_compression") ∧
    check_folder_structure n ds (some mt) none (some p) att none (some c)
      = .error .assertionError := by
  constructor <;> simp [check_folder_structure, hp, hc, le_of_lt]

/-- Witness for `c9_finetune_zero_vs_unset` at a concrete pruned
configuration. -/
theorem c9_finetune_zero_vs_unset_witness :
    check_folder_structure (some 2) (some (str "CIFAR10")) (some (str "VGG"))
      none (some (str "L1")) none (some 0) (some 4)
      = .ok (pyLower (str "VGG") ++ str "_" ++ str "L1" ++ str "_" ++ intToStr 4
              ++ str "_compression") ∧
    check_folder_structure (some 2) (some (str "CIFAR10")) (some (str "VGG"))
      none (some (str "L1")) none none (some 4)
      = .error .assertionError :=
  c9_finetune_zero_vs_unset (some 2) (some (str "CIFAR10")) none (str "VGG")
    (str "L1") 4 (by decide) (by decide)

/-- `True` iff the Python dict (insertion-ordered association list)
contains the key (`parameter in permutation`). -/
def dictHasKey {α : Type _} (d : List (Str × α)) (k : Str) : Bool :=
  d.any (fun kv => kv.1 = k)

/-- Python `d[k] = v` on an insertion-ordered dict: updating an
existing key keeps its position, a new key is appended at the end. -/
def dictAssign {α : Type _} (d : List (Str × α)) (k : Str) (v : α) : List (Str × α) :=
  if dictHasKey d k then d.map (fun kv => if kv.1 = k then (k, v) else kv)
  else d ++ [(k, v)]

/--
One iteration of the inner `for val in vals:` loop of
`generate_permutations` (experiment_utils.py:153-165).  `temp` is a
shallow copy of `permutations`, so:
* a permutation *not yet* containing the parameter is mutated in place
  (its position in `permutations` is preserved);
* a permutation already containing it has a copy (with the parameter
  overwritten) appended to `permutations`, in iteration order;
* after the loop, if `permutations` is still empty, `{parameter: val}`
  is appended (which only happens when it was empty before the loop).
-/
def permStep {α : Type _} (parameter : Str) (val : α)
    (permutations : List (List (Str × α))) : List (List (Str × α)) :=
  let mutated := permutations.map
    (fun p => if dictHasKey p parameter then p else dictAssign p parameter val)
  let appended := permutations.filterMap
    (fun p => if dictHasKey p parameter then some (dictAssign p parameter val) else none)
  let res := mutated ++ appended
  if res.isEmpty then [[(parameter, val)]] else res

/--
`generate_permutations` (experiment_utils.py:110-166).  The
`while ... popitem()` loop pops the *last* dict entry first (Python
3.7+ `popitem` is LIFO), so the input entries are processed in reverse
insertion order.
-/
def generate_permutations {α : Type _} (list_args : List (Str × List α)) :
    List (List (Str × α)) :=
  list_args.reverse.foldl
    (fun perms pv => pv.2.foldl (fun ps v => permStep pv.1 v ps) perms) []

example : generate_permutations [(str "model_type", [str "vgg_bn_drop", str "resnet20"]),
    (str "prune_method", [str "RandomPruning", str "GlobalMagWeight"])] =
    [ [(str "prune_method", str "RandomPruning"), (str "model_type", str "vgg_bn_drop")],
      [(str "prune_method", str "GlobalMagWeight"), (str "model_type", str "vgg_bn_drop")],
      [(str "prune_method", str "RandomPruning"), (str "model_type", str "resnet20")],
      [(str "prune_method", str "GlobalMagWeight"), (str "model_type", str "resnet20")] ] := by
  decide

/--
C2: for the input `{"a": [1, 2, 3], "b": [x, y]}` (here `x = 4`,
`y = 5`) the claim requires exactly 6 distinct combinations, every
(a-value, b-value) pair exactly once.  The code instead returns 8
combinations: the pairs `(a=3, b=4)` and `(a=3, b=5)` each appear
twice — the duplication defect acknowledged by the source's own Todo
comment ("there is a bug where if the first list has more than 2
elements, multiple copies of the same element get added").
-/
theorem c2_sweep_duplicates_combinations :
    generate_permutations [(str "a", [(1 : Int), 2, 3]), (str "b", [4, 5])] =
      [ [(str "b", 4), (str "a", 1)], [(str "b", 5), (str "a", 1)],
        [(str "b", 4), (str "a", 2)], [(str "b", 5), (str "a", 2)],
        [(str "b", 4), (str "a", 3)], [(str "b", 5), (str "a", 3)],
        [(str "b", 4), (str "a", 3)], [(str "b", 5), (str "a", 3)] ] ∧
    (generate_permutations [(str "a", [(1 : Int), 2, 3]), (str "b", [4, 5])]).length ≠ 6 ∧
    (generate_permutations [(str "a", [(1 : Int), 2, 3]), (str "b", [4, 5])]).count
      [(str "b", 4), (str "a", 3)] = 2 := by decide

/-- Observable stage calls made by `Experiment.run`
(experiments.py:304-333).  `attackStage transfer` is one call to
`self.attack(transfer=...)`; `evaluateStage attackArg` is the
`Model_Evaluator(...).run(attack=attackArg)` call — the evaluator (an
external collaborator) runs its own attack pass only when that
argument is true. -/
inductive RunEv where
  | notify
  | trainStage
  | pruneStage
  | quantizeStage
  | attackStage (transfer : Bool)
  | evaluateStage (attackArg : Bool)
  | updateCsvStage
deriving DecidableEq

/--
`Experiment.run` (experiments.py:304-333), modelled as the sequence of
stage calls it makes.  `train_from_scratch` is `not bool(model_path)`
from `__init__`; `attacked` starts as `skip_attack`; the early attack
runs only after training when neither pruning nor quantization is
configured; the late attack runs when an attack method is set and no
attack has happened yet; the transfer attack runs whenever
`transfer_attack_model is not None` (an `is not None` test, not
truthiness); evaluation always runs with `attack = not attacked`.
-/
def Experiment.run (model_path : Option Str) (only_transfer : Bool)
    (attack_method : Option Str) (prune_method : Option Str) (quantization : Option Int)
    (skip_attack : Bool) (transfer_attack_model : Option Str) : List RunEv :=
  let train_from_scratch := model_path.isNone
  let attacked := skip_attack
  let evs : List RunEv := [RunEv.notify]
  let p1 : List RunEv × Bool :=
    if train_from_scratch && !only_transfer then
      if truthyStr attack_method && !attacked && !truthyStr prune_method
          && !truthyInt quantization then
        (evs ++ [RunEv.trainStage, RunEv.attackStage false], true)
      else (evs ++ [RunEv.trainStage], attacked)
    else (evs, attacked)
  let evs := p1.1
  let attacked := p1.2
  let evs := if truthyStr prune_method && !only_transfer then evs ++ [RunEv.pruneStage] else evs
  let evs := if truthyInt quantization && !only_transfer then evs ++ [RunEv.quantizeStage] else evs
  let p2 : List RunEv × Bool :=
    if truthyStr attack_method && !attacked && !only_transfer then
      (evs ++ [RunEv.attackStage false], true)
    else (evs, attacked)
  let evs := p2.1
  let attacked := p2.2
  let evs := if transfer_attack_model.isSome then evs ++ [RunEv.attackStage true] else evs
  let evs := evs ++ [RunEv.evaluateStage (!attacked)]
  evs ++ [RunEv.updateCsvStage, RunEv.notify]

/--
C5: for every run with both `prune_method` and `attack_method` set,
`quantization = None`, `skip_attack = false` and
`only_transfer = false`, exactly one non-transfer attack call occurs:
the early (post-training) attack path is suppressed by the configured
pruning, the late attack path fires once, and the evaluation stage is
invoked with `attack = False`, so it runs no additional attack pass —
for any `model_path` and any `transfer_attack_model`.
-/
theorem c5_attack_runs_exactly_once
    (model_path transfer_attack_model : Option Str) (am pm : Str)
    (ham : am ≠ []) (hpm : pm ≠ []) :
    ((Experiment.run model_path false (some am) (some pm) none false
        transfer_attack_model).count (RunEv.attackStage false) = 1) ∧
    (RunEv.evaluateStage false) ∈ Experiment.run model_path false (some am) (some pm) none
        false transfer_attack_model ∧
    (RunEv.evaluateStage true) ∉ Experiment.run model_path false (some am) (some pm) none
        false transfer_attack_model := by
  cases model_path <;> cases transfer_attack_model <;>
    simp [Experiment.run, truthyStr, truthyInt, ham, hpm, List.count_append,
      List.count_cons, List.count_nil]

/-- Witness for `c5_attack_runs_exactly_once`: a fresh run
(no pretrained model, no transfer model) pruning with `"L1"` and
attacking with `"pgd"`. -/
theorem c5_attack_runs_exactly_once_witness :
    ((Experiment.run none false (some (str "pgd")) (some (str "L1")) none false
        none).count (RunEv.attackStage false) = 1) ∧
    (RunEv.evaluateStage false) ∈ Experiment.run none false (some (str "pgd"))
        (some (str "L1")) none false none ∧
    (RunEv.evaluateStage true) ∉ Experiment.run none false (some (str "pgd"))
        (some (str "L1")) none false none :=
  c5_attack_runs_exactly_once none none (str "pgd") (str "L1") (by decide) (by decide)

/-- Outcome of the SMTP interaction inside `email`'s `try` block (the
transport itself is an external collaborator): no exception, an
exception in the `smtplib.SMTPException` hierarchy, or any other
exception (e.g. `ssl.SSLError`, `socket.gaierror`, which are *not*
`SMTPException` subclasses). -/
inductive SendOutcome where
  | smtpException
  | otherException
deriving DecidableEq

/--
`email` (experiment_utils.py:65-102).  After the early `if not send:
return`, the message is built and the SMTP send attempted; the sole
`except SMTPException` clause logs a warning and swallows the
exception, while any other exception propagates to the caller.
`sendResult = none` models a successful send.
-/
def email (content subject sender reciever : Str) (pw : Option Str) (send : Bool)
    (sendResult : Option SendOutcome) : Except SendOutcome Unit :=
  if !send then .ok ()
  else
    match sendResult with
    | none => .ok ()
    | some .smtpException => .ok ()
    | some .otherException => .error .otherException

/--
C7 counterexample: the claim states a failure while sending is caught
and never propagated *for every possible error raised during the
send*.  The `except SMTPException` clause only catches the
`SMTPException` hierarchy: an error outside it (a TLS or DNS error,
for instance) propagates out of `email`.
-/
theorem c7_non_smtp_exception_propagates :
    email (str "body") (str "subject") (str "a@gmail.com") (str "b@gmail.com")
      none true (some .otherException) = .error .otherException := by decide

/--
C7 (amended): for every notification send at any checkpoint, a failure
of class `SMTPException` while sending is caught at the notification
call site, logged as a warning, and not propagated (and a successful
send also returns normally); errors outside the `SMTPException`
hierarchy propagate to the caller.
-/
theorem c7_smtp_exceptions_are_swallowed
    (content subject sender reciever : Str) (pw : Option Str) (send : Bool) :
    email content subject sender reciever pw send (some .smtpException) = .ok () ∧
    email content subject sender reciever pw send none = .ok () ∧
    (send = true →
      email content subject sender reciever pw send (some .otherException)
        = .error .otherException) := by
  cases send <;> simp [email]

/-- Witness for `c7_smtp_exceptions_are_swallowed` at concrete
arguments with `send = true`. -/
theorem c7_smtp_exceptions_are_swallowed_witness :
    email (str "b") (str "s") (str "x@gmail.com") (str "y@gmail.com") none true
      (some .smtpException) = .ok () ∧
    email (str "b") (str "s") (str "x@gmail.com") (str "y@gmail.com") none true
      none = .ok () ∧
    (true = true →
      email (str "b") (str "s") (str "x@gmail.com") (str "y@gmail.com") none true
        (some .otherException) = .error .otherException) :=
  c7_smtp_exceptions_are_swallowed (str "b") (str "s") (str "x@gmail.com")
    (str "y@gmail.com") none true

/-- Python `d.pop(k)` on a dict: the value and the dict without the
key, or `none` when the key is absent (in which case Python raises
`KeyError`). -/
def dictPop {α : Type _} (d : List (Str × α)) (k : Str) : Option (α × List (Str × α)) :=
  match d.lookup k with
  | none => none
  | some v => some (v, d.filter (fun kv => kv.1 ≠ k))

/-- Python `d.update(**e)`. -/
def dictUpdate {α : Type _} (d e : List (Str × α)) : List (Str × α) :=
  e.foldl (fun acc kv => dictAssign acc kv.1 kv.2) d

/-- The `default_pgd_args` literal of `Experiment.attack`
(experiments.py:406).  Its values are floating-point constants and
`np.inf`; they are carried as opaque rendered tokens since no claim
inspects them. -/
def default_pgd_args : List (Str × Str) :=
  [(str "eps", str "2/255"), (str "eps_iter", str "0.001"),
   (str "nb_iter", str "10"), (str "norm", str "np.inf")]

/-- One invocation of the external `AttackExperiment` collaborator
(`run_transfer` when `transfer` is true, `run` otherwise). -/
inductive AttackEv where
  | runCollaborator (transfer : Bool)
deriving DecidableEq

/--
`Experiment.attack` (experiments.py:403-448) up to the collaborator
call.  `self.attack_kwargs.pop('train')` raises `AttributeError` when
`attack_kwargs` is `None` and `KeyError` when the key `'train'` is
missing — in both cases before `AttackExperiment` is constructed or
invoked.  Then the defaults are merged, the `assert self.model_path is
not None` runs, and only then does the collaborator run (the returned
event list).  The restoration `self.attack_kwargs["train"] = train`
and the verbose email are dropped: they happen after the collaborator
call and no claim depends on them.
-/
def Experiment.attack (attack_kwargs : Option (List (Str × Str))) (model_path : Option Str)
    (transfer : Bool) : Except PyErr (List AttackEv) :=
  match attack_kwargs with
  | none => .error .attributeError
  | some kw =>
    match dictPop kw (str "train") with
    | none => .error .keyError
    | some (_train, rest) =>
      let _args := dictUpdate default_pgd_args rest
      match model_path with
      | none => .error .assertionError
      | some _ => .ok [AttackEv.runCollaborator transfer]

/--
C10: whenever `attack_kwargs` is `None` or lacks the key `'train'`,
the attack stage raises (`AttributeError` from `None.pop`, or
`KeyError` from `pop('train')`) before the attack collaborator is
invoked — the result is an error, never a collaborator-run event
list, for every `model_path` and both transfer modes.
-/
theorem c10_attack_requires_train_kwarg
    (kw : Option (List (Str × Str))) (mp : Option Str) (tr : Bool)
    (h : kw = none ∨ ∃ l, kw = some l ∧ l.lookup (str "train") = none) :
    Experiment.attack kw mp tr = .error .attributeError ∨
    Experiment.attack kw mp tr = .error .keyError := by
  rcases h with h | ⟨l, hl, hnone⟩
  · subst h; left; rfl
  · subst hl; right; simp [Experiment.attack, dictPop, hnone]

/-- Witness for `c10_attack_requires_train_kwarg`: kwargs present but
without the `'train'` key. -/
theorem c10_attack_requires_train_kwarg_witness :
    Experiment.attack (some [(str "eps", str "0.1")]) (some (str "model.pt")) false
      = .error .attributeError ∨
    Experiment.attack (some [(str "eps", str "0.1")]) (some (str "model.pt")) false
      = .error .keyError :=
  c10_attack_requires_train_kwarg (some [(str "eps", str "0.1")])
    (some (str "model.pt")) false (Or.inr ⟨[(str "eps", str "0.1")], rfl, by decide⟩)

/-- Python `haystack.find(needle)` scanning from offset `i`:
`pyFindFrom needle l i` is `i + j` for the first position `j` at which
`needle` occurs in `l`, and `-1` when it does not occur. -/
def pyFindFrom (needle : Str) : Str → Nat → Int
  | [], i => if needle.isPrefixOf [] then (i : Int) else -1
  | x :: tl, i =>
    if needle.isPrefixOf (x :: tl) then (i : Int)
    else pyFindFrom needle tl (i + 1)

/-- Python `haystack.find(needle)`: first index of occurrence, `-1`
when absent. -/
def pyFind (hay needle : Str) : Int := pyFindFrom needle hay 0

/-- Python `needle in haystack` for strings (substring test). -/
def pyContains (hay needle : Str) : Bool := decide (0 ≤ pyFind hay needle)

/-- Python slice `s[i:]` (negative `i` counts from the end, clamped to
the string). -/
def pySliceFrom (s : Str) (i : Int) : Str :=
  if 0 ≤ i then s.drop i.toNat else s.drop (s.length - (-i).toNat)

/-- Python slice `s[:i]` (negative `i` counts from the end, clamped to
the string). -/
def pySliceTo (s : Str) (i : Int) : Str :=
  if 0 ≤ i then s.take i.toNat else s.take (s.length - (-i).toNat)

/-- Python `s.split(sep)` for a one-character separator (the source
only splits on `"_"` and on the detected path separator):
`"".split(c) = [""]`, and separators at the ends produce empty
pieces. -/
def pySplit (c : Char) : Str → List Str
  | [] => [[]]
  | x :: tl =>
    if x = c then [] :: pySplit c tl
    else
      match pySplit c tl with
      | [] => [[x]]
      | s :: rest => (x :: s) :: rest

/-- Python list indexing `l[i]` (negative `i` counts from the end);
out of range raises `IndexError`. -/
def pyIdx {α : Type _} (l : List α) (i : Int) : Except PyErr α :=
  let j : Int := if i < 0 then i + l.length else i
  if 0 ≤ j then
    match l.get? j.toNat with
    | some a => .ok a
    | none => .error .indexError
  else .error .indexError

/-- Digit-string accumulator for `parseInt`; `none` when a non-digit
is hit or no digit was read. -/
def parseDigits : Str → Option Nat → Option Nat
  | [], acc => acc
  | c :: tl, acc =>
    if '0' ≤ c ∧ c ≤ '9' then
      parseDigits tl (some ((acc.getD 0) * 10 + (c.toNat - 48)))
    else none

/-- Python `int(s)` on the token shapes the decoder feeds it (an
optional sign followed by digits); anything else raises `ValueError`.
(The tokens come out of `split("_")`, so the underscore digit
grouping Python also accepts cannot arise.) -/
def parseInt (s : Str) : Except PyErr Int :=
  match s with
  | '-' :: rest =>
    match parseDigits rest none with
    | some n => .ok (-(n : Int))
    | none => .error (.valueError (str "int"))
  | '+' :: rest =>
    match parseDigits rest none with
    | some n => .ok ((n : Int))
    | none => .error (.valueError (str "int"))
  | _ =>
    match parseDigits s none with
    | some n => .ok ((n : Int))
    | none => .error (.valueError (str "int"))

/-- `needle` occurs as a contiguous substring of `m`. -/
def Occurs (needle m : Str) : Prop := ∃ p q, m = p ++ needle ++ q

theorem isPrefixOf_eq_exists : ∀ (a l : Str), a.isPrefixOf l = true ↔ ∃ t, l = a ++ t := by
  intro a
  induction a with
  | nil => intro l; simp [List.isPrefixOf]
  | cons x xs ih =>
    intro l
    cases l with
    | nil => simp [List.isPrefixOf]
    | cons y ys =>
      simp only [List.isPrefixOf, Bool.and_eq_true, beq_iff_eq, ih ys]
      constructor
      · rintro ⟨rfl, t, rfl⟩; exact ⟨t, rfl⟩
      · rintro ⟨t, ht⟩
        cases ht
        exact ⟨rfl, t, rfl⟩

theorem pyFindFrom_dichotomy (needle : Str) :
    ∀ (l : Str) (i : Nat), pyFindFrom needle l i = -1 ∨ 0 ≤ pyFindFrom needle l i := by
  intro l
  induction l with
  | nil => intro i; by_cases h : needle.isPrefixOf [] = true <;> simp [pyFindFrom, h]
  | cons x tl ih =>
    intro i
    by_cases h : needle.isPrefixOf (x :: tl) = true
    · right; simp [pyFindFrom, h]
    · simpa [pyFindFrom, h] using ih (i + 1)

theorem occurs_cons_iff (needle : Str) (x : Char) (tl : Str) :
    Occurs needle (x :: tl) ↔ (∃ t, x :: tl = needle ++ t) ∨ Occurs needle tl := by
  constructor
  · rintro ⟨p, q, hpq⟩
    cases p with
    | nil => exact Or.inl ⟨q, by simpa using hpq⟩
    | cons y p' =>
      right
      cases hpq
      exact ⟨p', q, rfl⟩
  · rintro (⟨t, ht⟩ | ⟨p, q, hpq⟩)
    · exact ⟨[], t, by simpa using ht⟩
    · cases hpq; exact ⟨x :: p, q, rfl⟩

theorem pyFindFrom_eq_neg_one_iff (needle : Str) :
    ∀ (l : Str) (i : Nat), pyFindFrom needle l i = -1 ↔ ¬ Occurs needle l := by
  intro l
  induction l with
  | nil =>
    intro i
    have hocc : Occurs needle [] ↔ needle = [] := by
      constructor
      · rintro ⟨p, q, hpq⟩
        have h2 := hpq.symm
        simp only [List.append_eq_nil] at h2
        exact h2.1.2
      · rintro rfl; exact ⟨[], [], rfl⟩
    by_cases h : needle = []
    · subst h
      have hpre : List.isPrefixOf ([] : Str) [] = true := by
        rw [isPrefixOf_eq_exists]; exact ⟨[], rfl⟩
      simp only [pyFindFrom, hpre, if_true, hocc]
      constructor
      · intro hfalse; exact absurd hfalse (by omega)
      · intro hno; exact absurd (by trivial) hno
    · have hpre : needle.isPrefixOf [] = false := by
        by_contra hco
        have : needle.isPrefixOf [] = true := by
          cases hb : needle.isPrefixOf ([] : Str) <;> simp_all
        obtain ⟨t, ht⟩ := (isPrefixOf_eq_exists _ _).mp this
        have h2 := ht.symm
        simp only [List.append_eq_nil] at h2
        exact h (h2.1)
      simp only [pyFindFrom, hpre, Bool.false_eq_true, if_false, hocc]
      simpa using h
  | cons x tl ih =>
    intro i
    by_cases h : needle.isPrefixOf (x :: tl) = true
    · have hx : ∃ t, x :: tl = needle ++ t := (isPrefixOf_eq_exists _ _).mp h
      have hocc : Occurs needle (x :: tl) := (occurs_cons_iff _ _ _).mpr (Or.inl hx)
      simp only [pyFindFrom, h, if_true]
      constructor
      · intro hfalse; exact absurd hfalse (by omega)
      · intro hno; exact absurd hocc hno
    · have hne : needle.isPrefixOf (x :: tl) = false := by
        cases hb : needle.isPrefixOf (x :: tl) <;> simp_all
      have hstep : pyFindFrom needle (x :: tl) i = pyFindFrom needle tl (i + 1) := by
        simp [pyFindFrom, hne]
      rw [hstep, ih (i + 1), occurs_cons_iff]
      have hpre : ¬ ∃ t, x :: tl = needle ++ t :=
        fun ht => h ((isPrefixOf_eq_exists _ _).mpr ht)
      tauto

theorem pyContains_iff_occurs (m s : Str) : pyContains m s = true ↔ Occurs s m := by
  unfold pyContains pyFind
  rcases pyFindFrom_dichotomy s m 0 with h | h
  · have hno := (pyFindFrom_eq_neg_one_iff s m 0).mp h
    rw [h]
    simp only [decide_eq_true_eq]
    exact iff_of_false (by omega) hno
  · have hocc : Occurs s m := by
      by_contra hno
      have := (pyFindFrom_eq_neg_one_iff s m 0).mpr hno
      omega
    simp only [decide_eq_true_eq]
    exact iff_of_true h hocc

theorem pyContains_false_iff (m s : Str) : pyContains m s = false ↔ ¬ Occurs s m := by
  rw [← pyContains_iff_occurs]
  cases pyContains m s <;> simp

theorem occurs_trans {a b m : Str} (h1 : Occurs a b) (h2 : Occurs b m) : Occurs a m := by
  obtain ⟨p, q, rfl⟩ := h1
  obtain ⟨r, t, rfl⟩ := h2
  exact ⟨r ++ p, q ++ t, by simp⟩

theorem pyContains_mono_false {m a b : Str} (h : pyContains m a = false)
    (hab : Occurs a b) : pyContains m b = false := by
  rw [pyContains_false_iff] at *
  exact fun hb => h (occurs_trans hab hb)

theorem pyContains_mono_true {m a b : Str} (h : pyContains m b = true)
    (hab : Occurs a b) : pyContains m a = true := by
  rw [pyContains_iff_occurs] at *
  exact occurs_trans hab h

theorem pyFind_eq_neg_one_of_not_contains {m s : Str} (h : pyContains m s = false) :
    pyFind m s = -1 := by
  rw [pyContains_false_iff] at h
  exact (pyFindFrom_eq_neg_one_iff s m 0).mpr h

theorem pySplit_ne_nil (c : Char) : ∀ l : Str, pySplit c l ≠ [] := by
  intro l
  cases l with
  | nil => simp [pySplit]
  | cons x tl =>
    by_cases h : x = c
    · simp [pySplit, h]
    · simp only [pySplit]
      rw [if_neg h]
      cases pySplit c tl <;> simp

theorem pySplit_cons (c x : Char) (tl : Str) :
    pySplit c (x :: tl) = if x = c then [] :: pySplit c tl
      else match pySplit c tl with
        | [] => [[x]]
        | s :: rest => (x :: s) :: rest := rfl

theorem pySplit_append_sep (c : Char) : ∀ (xs ys : Str),
    pySplit c (xs ++ c :: ys) = pySplit c xs ++ pySplit c ys := by
  intro xs
  induction xs with
  | nil => intro ys; simp [pySplit]
  | cons x tl ih =>
    intro ys
    have key : (x :: tl) ++ c :: ys = x :: (tl ++ c :: ys) := rfl
    rw [key, pySplit_cons, pySplit_cons]
    by_cases h : x = c
    · rw [if_pos h, if_pos h, ih]
      rfl
    · rw [if_neg h, if_neg h, ih ys]
      rcases hsp : pySplit c tl with _ | ⟨s, rest⟩
      · exact absurd hsp (pySplit_ne_nil c tl)
      · simp [hsp]

theorem pyIdx_append_pair {α : Type _} (A : List α) (a b : α) :
    pyIdx (A ++ [a, b]) (-2 : Int) = .ok a := by
  unfold pyIdx
  have hif : (if (-2 : Int) < 0 then (-2 : Int) + ((A ++ [a, b]).length : Int) else -2)
      = (A.length : Int) := by
    rw [if_pos (by omega : (-2 : Int) < 0)]
    simp only [List.length_append, List.length_cons, List.length_nil]
    push_cast
    omega
  rw [hif, if_pos (by positivity : (0 : Int) ≤ (A.length : Int))]
  have htn : ((A.length : Int)).toNat = A.length := by omega
  rw [htn]
  have hget : (A ++ [a, b]).get? A.length = some a := by
    rw [List.get?_eq_getElem?, List.getElem?_append_right (by omega)]
    simp
  rw [hget]

/--
Line 182 of experiments.py:
`int(m_path[m_path.find("experiment_"):].split("_")[1].split(sep)[0])`.
Note the *caller* binds this to a local variable `experiment_number`,
not to `self.experiment_number`.
-/
def inferExperimentNumber (m : Str) (sep : Char) : Except PyErr Int := do
  let t := pySliceFrom m (pyFind m (str "experiment_"))
  let p1 ← pyIdx (pySplit '_' t) 1
  let p0 ← pyIdx (pySplit sep p1) 0
  parseInt p0

/--
Line 189 of experiments.py:
`m_path[m_path.find(f"experiment_{self.experiment_number}"):].split(sep)[1]`
— the marker renders `self.experiment_number`, which is `"None"` when
that field was never assigned.
-/
def inferModelType (m : Str) (sep : Char) (experiment_number : Option Int) :
    Except PyErr Str := do
  let marker := str "experiment_" ++ optIntRepr experiment_number
  let t := pySliceFrom m (pyFind m marker)
  pyIdx (pySplit sep t) 1

/-- Line 196 of experiments.py:
`m_path[m_path.find(self.model_type):].split(sep)[1]`. -/
def inferDataset (m : Str) (sep : Char) (model_type : Str) : Except PyErr Str := do
  let t := pySliceFrom m (pyFind m model_type)
  pyIdx (pySplit sep t) 1

/-- Lines 206-210 / 261-265 of experiments.py: locate `"quantization"`
in the path and parse `m_path[:loc].split("_")[-2]` as the modulus. -/
def inferQuantization (m : Str) : Except PyErr (Option Int) :=
  let loc := pyFind m (str "quantization")
  if 0 ≤ loc then do
    let v ← pyIdx (pySplit '_' (pySliceTo m loc)) (-2)
    let i ← parseInt v
    .ok (some i)
  else .ok none

/-- Lines 199-210 (and the identical 254-265) of experiments.py: the
quantization consistency check / inference.  A supplied truthy value
is only rejected when the path mentions `"quantization"` but not
`f"{q}_quantization"`; a falsy value is overwritten by inference. -/
def resolveQuantization (m : Str) (quantization : Option Int) :
    Except PyErr (Option Int) :=
  match quantization with
  | some q =>
    if q ≠ 0 then
      if pyContains m (str "quantization") then
        if pyContains m (intToStr q ++ str "_quantization") then .ok (some q)
        else .error (.valueError (str "quantization"))
      else .ok (some q)
    else inferQuantization m
  | none => inferQuantization m

/-- Lines 224-228 of experiments.py: infer the compression from the
path (never sets `already_pruned`). -/
def inferCompression (m : Str) : Except PyErr (Option Int × Bool) :=
  let loc := pyFind m (str "compression")
  if 0 ≤ loc then do
    let v ← pyIdx (pySplit '_' (pySliceTo m loc)) (-2)
    let i ← parseInt v
    .ok (some i, false)
  else .ok (none, false)

/-- Lines 215-228 of experiments.py: compression consistency check /
inference; returns the resolved value and the `already_pruned` flag
(set only when a supplied truthy compression matches the path). -/
def resolveCompression (m : Str) (prune_compression : Option Int) :
    Except PyErr (Option Int × Bool) :=
  match prune_compression with
  | some c =>
    if c ≠ 0 then
      if pyContains m (str "compression") then
        if pyContains m (intToStr c ++ str "_compression") then .ok (some c, true)
        else .error (.valueError (str "prune_compression"))
      else .ok (some c, false)
    else inferCompression m
  | none => inferCompression m

/-- Lines 237-240 of experiments.py: when a (resolved) compression is
truthy, the prune method is parsed as
`m_path[:m_path.find(f"{compression}_compression")].split("_")[-2]`;
otherwise it stays `None`. -/
def inferPruneMethod (m : Str) (compression : Option Int) : Except PyErr (Option Str) :=
  match compression with
  | some c =>
    if c ≠ 0 then do
      let t := pySliceTo m (pyFind m (intToStr c ++ str "_compression"))
      let v ← pyIdx (pySplit '_' t) (-2)
      .ok (some v)
    else .ok none
  | none => .ok none

/-- Lines 230-240 of experiments.py: prune-method consistency check /
inference; a supplied truthy method is only rejected when absent from
the path *and* `already_pruned` is set. -/
def resolvePruneMethod (m : Str) (prune_method : Option Str) (compression : Option Int)
    (already_pruned : Bool) : Except PyErr (Option Str) :=
  match prune_method with
  | some p =>
    if p ≠ [] then
      if !(pyContains m p) && already_pruned then .error (.valueError (str "prune_method"))
      else .ok (some p)
    else inferPruneMethod m compression
  | none => inferPruneMethod m compression

/-- Lines 249-252 of experiments.py: when the (resolved) prune method
is truthy, the finetune epochs are parsed as
`int(m_path[:m_path.find("finetune")].split("_")[-2])`; otherwise they
stay `None`. -/
def inferFinetune (m : Str) (prune_method : Option Str) : Except PyErr (Option Int) :=
  if truthyStr prune_method then do
    let t := pySliceTo m (pyFind m (str "finetune"))
    let v ← pyIdx (pySplit '_' t) (-2)
    let i ← parseInt v
    .ok (some i)
  else .ok none

/-- Lines 242-252 of experiments.py: finetune consistency check /
inference; a supplied truthy value is only rejected when
`f"{f}_finetune_iterations"` is absent from the path *and*
`already_pruned` is set. -/
def resolveFinetune (m : Str) (finetune_epochs : Option Int) (prune_method : Option Str)
    (already_pruned : Bool) : Except PyErr (Option Int) :=
  match finetune_epochs with
  | some f =>
    if f ≠ 0 then
      if !(pyContains m (intToStr f ++ str "_finetune_iterations")) && already_pruned then
        .error (.valueError (str "finetune_epochs"))
      else .ok (some f)
    else inferFinetune m prune_method
  | none => inferFinetune m prune_method

/-- The configuration fields of an `Experiment` that `generate_paths`
reads and (on resume) rewrites in place on `self`. -/
structure ExpConfig where
  experiment_number : Option Int
  model_type : Option Str
  dataset : Option Str
  quantization : Option Int
  prune_method : Option Str
  prune_compression : Option Int
  finetune_epochs : Option Int
deriving DecidableEq

/--
`Experiment.generate_paths` (experiments.py:158-276): when a
`model_path` is given, validate the supplied fields against the path
string and infer the unset ones (the decode direction); in every case
finish by calling `check_folder_structure` with the resolved fields
(the encode direction).  Returns the resolved configuration fields and
the model folder name.

Faithful details: the path separator is detected (`'\\'` if present in
the string else `'/'`); a falsy supplied field (`None`, `0`, `""`)
triggers the inference branch; the experiment-number inference result
is bound to a local variable and *discarded* (the `self` field keeps
its old value, exactly as in the source); the quantization block runs
twice (lines 199-210 and 254-265).  `format_path` (imported by the
source but not part of this repository's files) is taken as the
identity on the path string.
-/
def Experiment.generate_paths (model_path : Option Str) (resume : Bool)
    (experiment_number : Option Int) (model_type dataset : Option Str)
    (quantization : Option Int) (prune_method : Option Str)
    (prune_compression : Option Int) (finetune_epochs : Option Int)
    (attack_method : Option Str) : Except PyErr (ExpConfig × Str) :=
  match model_path with
  | none => do
    let folder ← check_folder_structure experiment_number dataset model_type quantization
        prune_method attack_method finetune_epochs prune_compression
    .ok ({ experiment_number := experiment_number, model_type := model_type,
           dataset := dataset, quantization := quantization,
           prune_method := prune_method, prune_compression := prune_compression,
           finetune_epochs := finetune_epochs }, folder)
  | some m => do
    let sep : Char := if pyContains m (str "\\") then '\\' else '/'
    -- lines 177-182 (experiment number)
    let exp_num ←
      match experiment_number with
      | some n =>
        if n ≠ 0 then
          if pyContains m (str "experiment_" ++ intToStr n) then .ok (some n)
          else .error (.valueError (str "experiment_number"))
        else do
          let _ ← inferExperimentNumber m sep
          .ok (some n)
      | none => do
        let _ ← inferExperimentNumber m sep
        .ok (none : Option Int)
    -- lines 184-189 (model type)
    let mt ←
      match model_type with
      | some s =>
        if s ≠ [] then
          if pyContains m s then .ok s else .error (.valueError (str "model_type"))
        else inferModelType m sep exp_num
      | none => inferModelType m sep exp_num
    -- lines 191-196 (dataset)
    let ds ←
      match dataset with
      | some s =>
        if s ≠ [] then
          if pyContains m s then .ok s else .error (.valueError (str "dataset"))
        else inferDataset m sep mt
      | none => inferDataset m sep mt
    -- lines 198-265 (resume-only consistency checks and inference)
    let resolved ←
      if resume then do
        let q1 ← resolveQuantization m quantization
        let cp ← resolveCompression m prune_compression
        let pr ← resolvePruneMethod m prune_method cp.1 cp.2
        let ft ← resolveFinetune m finetune_epochs pr cp.2
        let q2 ← resolveQuantization m q1
        .ok (q2, pr, cp.1, ft)
      else
        .ok (quantization, prune_method, prune_compression, finetune_epochs)
    -- lines 267-276 (encode with the resolved fields)
    let folder ← check_folder_structure exp_num (some ds) (some mt) resolved.1
        resolved.2.1 attack_method resolved.2.2.2 resolved.2.2.1
    .ok ({ experiment_number := exp_num, model_type := some mt, dataset := some ds,
           quantization := resolved.1, prune_method := resolved.2.1,
           prune_compression := resolved.2.2.1, finetune_epochs := resolved.2.2.2 }, folder)

/-- The full `path_dict["model"]` string built by
`check_folder_structure`:
`<root>/experiments/experiment_<n>/<model_type>/<dataset>/<folder>`. -/
def modelPathStr (root : Str) (experiment_number : Option Int) (model_type dataset : Str)
    (folder : Str) : Str :=
  root ++ str "/experiments/experiment_" ++ optIntRepr experiment_number ++ str "/"
    ++ model_type ++ str "/" ++ dataset ++ str "/" ++ folder

example : modelPathStr (str "/aicas") (some 1) (str "VGG") (str "CIFAR10") (str "vgg")
    = str "/aicas/experiments/experiment_1/VGG/CIFAR10/vgg" := by decide

/-- The path encoded for configuration `(experiment_number = 1,
model_type = "VGG", dataset = "CIFAR10")` with no quantization and no
pruning, rooted at `/aicas`. -/
def c1Path : Str := modelPathStr (str "/aicas") (some 1) (str "VGG") (str "CIFAR10") (str "vgg")

/--
C1: the claim states that decoding the path produced by encoding a
configuration, with no fields supplied by the caller, recovers every
field the folder-name grammar captures.  The code cannot do this for
*any* configuration: encoding `(1, "VGG", "CIFAR10")` yields folder
`"vgg"` under `.../experiments/experiment_1/VGG/CIFAR10/`, but
decoding that path with no supplied fields raises `IndexError` — the
integer parsed after `"experiment_"` is bound to a *local* variable
(experiments.py:182) and never stored on `self`, so the subsequent
model-type inference searches for the marker `"experiment_None"`,
misses, slices off the last character of the path and indexes `[1]`
into a one-element split.
-/
theorem c1_decode_does_not_invert_encode :
    Experiment.generate_paths none false (some 1) (some (str "VGG"))
        (some (str "CIFAR10")) none none (some 1) none none
      = .ok ({ experiment_number := some 1, model_type := some (str "VGG"),
               dataset := some (str "CIFAR10"), quantization := none,
               prune_method := none, prune_compression := some 1,
               finetune_epochs := none }, str "vgg") ∧
    Experiment.generate_paths (some c1Path) true none none none none none (some 1)
        none none
      = .error .indexError := by decide

/-- A model path under `experiment_3` for claim C4. -/
def c4Path : Str := modelPathStr (str "/aicas") (some 3) (str "VGG") (str "CIFAR10") (str "vgg")

/--
C4: the claim states that when the caller does not supply
`experiment_number`, the decoder infers it from the integer after the
literal marker `"experiment_"`, so the resolved configuration's
`experiment_number` equals that integer.  The parsing expression does
evaluate to that integer (here 3), but line 182 binds it to a local
variable instead of `self.experiment_number`, so the resolved
configuration's `experiment_number` is `None`, not 3 (and the
subsequent model-type inference consequently searches for
`"experiment_None"`).
-/
theorem c4_inferred_experiment_number_is_discarded :
    inferExperimentNumber c4Path '/' = .ok 3 ∧
    (Experiment.generate_paths (some c4Path) false none (some (str "VGG"))
        (some (str "CIFAR10")) none none (some 1) none none).map
        (fun r => r.1.experiment_number)
      = .ok none := by decide

/-- An encoded model path whose folder name carries `quantization=8`,
for claim C3. -/
def c3Path : Str :=
  modelPathStr (str "/aicas") (some 1) (str "VGG") (str "CIFAR10") (str "vgg_8_quantization")

/--
C3 counterexample: the claim states that for a path encoding
`quantization=8`, a resume decode supplying `quantization=8` succeeds
without error.  Supplying *only* `quantization=8` (all other fields
left to their defaults) raises `IndexError` instead: the
experiment-number inference result is discarded (experiments.py:182),
so the model-type inference searches for `"experiment_None"` and
crashes before the quantization check is ever reached.
-/
theorem c3_resume_decode_with_quantization_only_crashes :
    Experiment.generate_paths (some c3Path) true none none none (some 8) none (some 1)
      none none = .error .indexError := by decide

theorem bind_ok_eq {ε α β : Type _} (a : α) (f : α → Except ε β) :
    (Except.ok a : Except ε α) >>= f = f a := rfl

theorem bind_error_eq {ε α β : Type _} (e : ε) (f : α → Except ε β) :
    (Except.error e : Except ε α) >>= f = Except.error e := rfl

theorem take_pred_of_q_suffix (pre : Str) :
    (pre ++ str "_8_quantization").take ((pre ++ str "_8_quantization").length - 1)
      = pre ++ str "_8_quantizatio" := by
  have hq : (str "_8_quantization").length = 15 := by decide
  have hlen : (pre ++ str "_8_quantization").length - 1 = pre.length + 14 := by
    simp only [List.length_append, hq]
    omega
  rw [hlen, List.take_append]
  congr 1

theorem split_of_q_suffix (pre : Str) :
    pySplit '_' (pre ++ str "_8_quantizatio")
      = pySplit '_' pre ++ [str "8", str "quantizatio"] := by
  have h1 : pre ++ str "_8_quantizatio" = pre ++ '_' :: str "8_quantizatio" := by
    congr 1
  rw [h1, pySplit_append_sep]
  congr 1

/-- On a path ending in `"_8_quantization"` that mentions no
`"compression"`, the prune-method inference with the default
compression 1 parses the garbage token `"8"` (find returns `-1`, the
slice `[:-1]` drops the last character, and `split("_")[-2]` lands on
the `8` of the quantization segment) — and succeeds. -/
theorem inferPruneMethod_no_compression {m : Str} (pre : Str)
    (hsuf : m = pre ++ str "_8_quantization")
    (hcomp : pyContains m (str "compression") = false) :
    inferPruneMethod m (some 1) = .ok (some (str "8")) := by
  subst hsuf
  have hocc : Occurs (str "compression") (str "1_compression") := ⟨str "1_", [], by decide⟩
  have hfind : pyFind (pre ++ str "_8_quantization") (str "1_compression") = -1 :=
    pyFind_eq_neg_one_of_not_contains (pyContains_mono_false hcomp hocc)
  have hmark : intToStr 1 ++ str "_compression" = str "1_compression" := by decide
  have hslice : pySliceTo (pre ++ str "_8_quantization") (-1)
      = (pre ++ str "_8_quantization").take ((pre ++ str "_8_quantization").length - 1) := by
    simp [pySliceTo]
  simp only [inferPruneMethod]
  rw [if_pos (show ¬ (1 : Int) = 0 by decide), hmark, hfind, hslice,
    take_pred_of_q_suffix, split_of_q_suffix, pyIdx_append_pair]
  rfl

/-- On the same path shape, the finetune inference (triggered by the
garbage prune method `"8"`) parses `int("8") = 8` and succeeds. -/
theorem inferFinetune_no_finetune {m : Str} (pre : Str)
    (hsuf : m = pre ++ str "_8_quantization")
    (hft : pyContains m (str "finetune") = false) :
    inferFinetune m (some (str "8")) = .ok (some 8) := by
  subst hsuf
  have hfind : pyFind (pre ++ str "_8_quantization") (str "finetune") = -1 :=
    pyFind_eq_neg_one_of_not_contains hft
  have hslice : pySliceTo (pre ++ str "_8_quantization") (-1)
      = (pre ++ str "_8_quantization").take ((pre ++ str "_8_quantization").length - 1) := by
    simp [pySliceTo]
  simp only [inferFinetune]
  rw [if_pos (show truthyStr (some (str "8")) = true by decide), hfind, hslice,
    take_pred_of_q_suffix, split_of_q_suffix, pyIdx_append_pair]
  rfl

/--
C3 (amended): for every resume decode over a model path whose folder
name ends in the encoded `quantization=8` segment (and mentions no
compression or finetune segment), *provided the caller also supplies
an experiment number, model type and dataset consistent with the
path*: supplying an explicit `quantization=4` fails with the
quantization `ConfigurationError` (`ValueError`), while supplying
`quantization=8` succeeds without error.  (The proviso is forced by
the counterexample
`c3_resume_decode_with_quantization_only_crashes`: without the other
fields the decode crashes on the discarded experiment-number
inference before the quantization check runs.)
-/
theorem c3_resume_quantization_conflict
    (m : Str) (n : Int) (mt ds : Str)
    (hn : n ≠ 0) (hmt : mt ≠ []) (hds : ds ≠ [])
    (hexp : pyContains m (str "experiment_" ++ intToStr n) = true)
    (hmtc : pyContains m mt = true)
    (hdsc : pyContains m ds = true)
    (h8 : pyContains m (str "8_quantization") = true)
    (h4 : pyContains m (str "4_quantization") = false)
    (hcomp : pyContains m (str "compression") = false)
    (hft : pyContains m (str "finetune") = false)
    (hsuf : ∃ pre, m = pre ++ str "_8_quantization") :
    Experiment.generate_paths (some m) true (some n) (some mt) (some ds) (some 4) none
        (some 1) none none = .error (.valueError (str "quantization")) ∧
    exceptOk (Experiment.generate_paths (some m) true (some n) (some mt) (some ds)
        (some 8) none (some 1) none none) = true := by
  obtain ⟨pre, hpre⟩ := hsuf
  have hq : pyContains m (str "quantization") = true :=
    pyContains_mono_true h8 ⟨str "8_", [], by decide⟩
  have hm4 : intToStr 4 ++ str "_quantization" = str "4_quantization" := by decide
  have hm8 : intToStr 8 ++ str "_quantization" = str "8_quantization" := by decide
  have hq4 : resolveQuantization m (some 4) = .error (.valueError (str "quantization")) := by
    simp only [resolveQuantization, hm4]
    rw [if_pos (show ¬ (4 : Int) = 0 by decide), hq, h4]
    rfl
  have hq8 : resolveQuantization m (some 8) = .ok (some 8) := by
    simp only [resolveQuantization, hm8]
    rw [if_pos (show ¬ (8 : Int) = 0 by decide), hq, h8]
    rfl
  have hcp : resolveCompression m (some 1) = .ok (some 1, false) := by
    simp only [resolveCompression]
    rw [if_pos (show ¬ (1 : Int) = 0 by decide), hcomp]
    rfl
  have hpr : resolvePruneMethod m none (some 1) false = .ok (some (str "8")) := by
    simp only [resolvePruneMethod]
    exact inferPruneMethod_no_compression pre hpre hcomp
  have hfin : resolveFinetune m none (some (str "8")) false = .ok (some 8) := by
    simp only [resolveFinetune]
    exact inferFinetune_no_finetune pre hpre hft
  constructor
  · simp only [Experiment.generate_paths, bind_ok_eq, bind_error_eq, hn, hexp, hmt,
      hmtc, hds, hdsc, hq4, ne_eq, not_false_eq_true, if_true, ite_true,
      decide_eq_true_eq, if_pos]
  · simp only [Experiment.generate_paths, bind_ok_eq, bind_error_eq, hn, hexp, hmt,
      hmtc, hds, hdsc, hq8, hcp, hpr, hfin, ne_eq, not_false_eq_true, if_true,
      ite_true, decide_eq_true_eq, if_pos]
    rfl

/-- Witness for `c3_resume_quantization_conflict` at the concrete
encoded path `c3Path`. -/
theorem c3_resume_quantization_conflict_witness :
    Experiment.generate_paths (some c3Path) true (some 1) (some (str "VGG"))
        (some (str "CIFAR10")) (some 4) none (some 1) none none
      = .error (.valueError (str "quantization")) ∧
    exceptOk (Experiment.generate_paths (some c3Path) true (some 1) (some (str "VGG"))
        (some (str "CIFAR10")) (some 8) none (some 1) none none) = true :=
  c3_resume_quantization_conflict c3Path 1 (str "VGG") (str "CIFAR10") (by decide)
    (by decide) (by decide) (by decide) (by decide) (by decide) (by decide) (by decide)
    (by decide) (by decide)
    ⟨str "/aicas/experiments/experiment_1/VGG/CIFAR10/vgg", by decide⟩


mutual
/-- Python values as `save_variables` can encounter them: JSON-ready
scalars, `None`, `pathlib.Path` objects, arbitrary non-JSON-encodable
objects (`pobj`, carrying only a display tag), and nested
lists/dicts.  The three types are mutually inductive so the embedding
of `json.dumps` is structurally recursive. -/
inductive PyVal where
  | pstr (s : Str)
  | pint (n : Int)
  | pbool (b : Bool)
  | pnone
  | ppath (s : Str)
  | pobj (tag : Str)
  | plist (xs : PyList)
  | pdict (xs : PyDict)
inductive PyList where
  | nil
  | cons (hd : PyVal) (tl : PyList)
inductive PyDict where
  | dnil
  | dcons (k : Str) (v : PyVal) (tl : PyDict)
end


mutual
/-- The JSON document produced by `json.dumps` (its textual rendering,
indentation and quoting are abstracted as this tree). -/
inductive Json where
  | jstr (s : Str)
  | jint (n : Int)
  | jbool (b : Bool)
  | jnull
  | jarr (xs : JsonList)
  | jobj (xs : JsonDict)
inductive JsonList where
  | nil
  | cons (hd : Json) (tl : JsonList)
inductive JsonDict where
  | dnil
  | dcons (k : Str) (v : Json) (tl : JsonDict)
end


mutual
/-- `json.dumps(…, skipkeys=True, default=dflt)` over the embedded
values: scalars encode natively; a `Path` or any other non-encodable
object is passed to the `default` callback `dflt` (which, when
absent, raises — hence the `Except`); containers recurse.  All keys
here are strings so `skipkeys` never fires. -/
def dumps (dflt : Str → Except PyErr Json) : PyVal → Except PyErr Json
  | .pstr s => .ok (.jstr s)
  | .pint n => .ok (.jint n)
  | .pbool b => .ok (.jbool b)
  | .pnone => .ok .jnull
  | .ppath s => dflt (str "PosixPath(" ++ s ++ str ")")
  | .pobj tag => dflt tag
  | .plist xs => do
    let js ← dumpsL dflt xs
    .ok (.jarr js)
  | .pdict xs => do
    let js ← dumpsD dflt xs
    .ok (.jobj js)
def dumpsL (dflt : Str → Except PyErr Json) : PyList → Except PyErr JsonList
  | .nil => .ok .nil
  | .cons v tl => do
    let jv ← dumps dflt v
    let jtl ← dumpsL dflt tl
    .ok (.cons jv jtl)
def dumpsD (dflt : Str → Except PyErr Json) : PyDict → Except PyErr JsonDict
  | .dnil => .ok .dnil
  | .dcons k v tl => do
    let jv ← dumps dflt v
    let jtl ← dumpsD dflt tl
    .ok (.dcons k jv jtl)
end


/-- The `default = lambda x: "json encode error"` callback of
`Experiment.save_variables` (experiments.py:295). -/

def jsonSentinel : Str → Except PyErr Json := fun _ => .ok (.jstr (str "json encode error"))

mutual
theorem dumps_sentinel_ok : ∀ (v : PyVal), ∃ j, dumps jsonSentinel v = .ok j
  | .pstr s => ⟨.jstr s, rfl⟩
  | .pint n => ⟨.jint n, rfl⟩
  | .pbool b => ⟨.jbool b, rfl⟩
  | .pnone => ⟨.jnull, rfl⟩
  | .ppath _ => ⟨.jstr (str "json encode error"), rfl⟩
  | .pobj _ => ⟨.jstr (str "json encode error"), rfl⟩
  | .plist xs => by
    obtain ⟨j, hj⟩ := dumpsL_sentinel_ok xs
    exact ⟨.jarr j, by simp only [dumps, hj, bind_ok_eq]⟩
  | .pdict xs => by
    obtain ⟨j, hj⟩ := dumpsD_sentinel_ok xs
    exact ⟨.jobj j, by simp only [dumps, hj, bind_ok_eq]⟩
theorem dumpsL_sentinel_ok : ∀ (l : PyList), ∃ j, dumpsL jsonSentinel l = .ok j
  | .nil => ⟨.nil, rfl⟩
  | .cons v tl => by
    obtain ⟨jv, hv⟩ := dumps_sentinel_ok v
    obtain ⟨jtl, htl⟩ := dumpsL_sentinel_ok tl
    exact ⟨.cons jv jtl, by simp only [dumpsL, hv, htl, bind_ok_eq]⟩
theorem dumpsD_sentinel_ok : ∀ (d : PyDict), ∃ j, dumpsD jsonSentinel d = .ok j
  | .dnil => ⟨.dnil, rfl⟩
  | .dcons k v tl => by
    obtain ⟨jv, hv⟩ := dumps_sentinel_ok v
    obtain ⟨jtl, htl⟩ := dumpsD_sentinel_ok tl
    exact ⟨.dcons k jv jtl, by simp only [dumpsD, hv, htl, bind_ok_eq]⟩
end

def pyDictSet : PyDict → Str → PyVal → PyDict
  | .dnil, k, v => .dcons k v .dnil
  | .dcons k' v' tl, k, v =>
    if k' = k then .dcons k' v tl
    else .dcons k' v' (pyDictSet tl k v)

def pyDictFind : PyDict → Str → Option PyVal
  | .dnil, _ => none
  | .dcons k v tl, x => if k = x then some v else pyDictFind tl x

def jsonDictFind : JsonDict → Str → Option Json
  | .dnil, _ => none
  | .dcons k v tl, x => if k = x then some v else jsonDictFind tl x

def jsonField : Except PyErr Json → Str → Option Json
  | .ok (.jobj d), x => jsonDictFind d x
  | _, _ => none

theorem pyDictSet_find_same : ∀ (d : PyDict) (k : Str) (v : PyVal),
    pyDictFind (pyDictSet d k v) k = some v
  | .dnil, k, v => by simp [pyDictSet, pyDictFind]
  | .dcons k' v' tl, k, v => by
    by_cases h : k' = k
    · simp [pyDictSet, pyDictFind, h]
    · simp only [pyDictSet, if_neg h, pyDictFind, if_neg h]
      exact pyDictSet_find_same tl k v

theorem pyDictSet_find_other : ∀ (d : PyDict) (k x : Str) (v : PyVal), x ≠ k →
    pyDictFind (pyDictSet d k v) x = pyDictFind d x
  | .dnil, k, x, v, h => by
    simp only [pyDictSet, pyDictFind]
    rw [if_neg (fun hh => h hh.symm)]
  | .dcons k' v' tl, k, x, v, h => by
    by_cases hk : k' = k
    · subst hk
      simp only [pyDictSet, if_pos rfl, pyDictFind]
      rw [if_neg (fun hh => h hh.symm), if_neg (fun hh => h hh.symm)]
    · simp only [pyDictSet, if_neg hk, pyDictFind]
      by_cases hx : k' = x
      · rw [if_pos hx, if_pos hx]
      · rw [if_neg hx, if_neg hx]
        exact pyDictSet_find_other tl k x v h

theorem dumpsD_find : ∀ (d : PyDict) (jd : JsonDict),
    dumpsD jsonSentinel d = .ok jd →
    ∀ (x : Str) (v : PyVal), pyDictFind d x = some v →
    ∃ jv, jsonDictFind jd x = some jv ∧ dumps jsonSentinel v = .ok jv
  | .dnil, jd, hd, x, v, hv => by simp [pyDictFind] at hv
  | .dcons k w tl, jd, hd, x, v, hv => by
    simp only [dumpsD] at hd
    obtain ⟨jw, hw⟩ := dumps_sentinel_ok w
    obtain ⟨jtl, htl⟩ := dumpsD_sentinel_ok tl
    rw [hw, bind_ok_eq, htl, bind_ok_eq] at hd
    have hjd : jd = .dcons k jw jtl := by
      cases hd
      rfl
    subst hjd
    simp only [pyDictFind] at hv
    by_cases hx : k = x
    · rw [if_pos hx] at hv
      cases hv
      exact ⟨jw, by simp [jsonDictFind, hx], hw⟩
    · rw [if_neg hx] at hv
      obtain ⟨jv, hfind, hdv⟩ := dumpsD_find tl jtl htl x v hv
      exact ⟨jv, by simp [jsonDictFind, hx, hfind], hdv⟩

/-- The `variables` list of `Experiment.save_variables`
(experiments.py:283-288), verbatim — including the duplicated
`"dataset"` entry, which the dict comprehension collapses. -/
def variablesList : List Str :=
  [str "name", str "experiment_number", str "dataset", str "model_type", str "model_path",
   str "best_model_metric", str "quantization", str "prune_method", str "prune_compression",
   str "finetune_epochs", str "attack_method", str "attack_kwargs", str "email_verbose",
   str "gpu", str "debug", str "save_one_checkpoint", str "seed", str "train_from_scratch",
   str "train_kwargs", str "prune_kwargs", str "dataset", str "skip_attack",
   str "only_transfer", str "transfer_attack_model"]

/-- One field of the comprehension
`{x: str(getattr(self, x)) if isinstance(getattr(self, x), Path) else getattr(self, x) for x in variables}`:
a top-level `Path` value is coerced to its string form, everything
else is passed through. -/
def coercePath : PyVal → PyVal
  | .ppath s => .pstr s
  | v => v

/-- The `params` dict of `save_variables`: the comprehension over
`variables`, where `self` is abstracted as the `getattr` function
from field names to values. -/
def buildParams (getattr : Str → PyVal) : PyDict :=
  variablesList.foldl (fun d x => pyDictSet d x (coercePath (getattr x))) .dnil

/-- `Experiment.save_variables` (experiments.py:278-302): build the
params dict and `json.dumps` it with the sentinel default.  The
timestamped file write is a filesystem side effect outside the
embedding. -/
def Experiment.save_variables (getattr : Str → PyVal) : Except PyErr Json :=
  dumps jsonSentinel (.pdict (buildParams getattr))

theorem foldl_find (getattr : Str → PyVal) :
    ∀ (xs : List Str) (d : PyDict) (x : Str),
      (x ∈ xs ∨ pyDictFind d x = some (coercePath (getattr x))) →
      pyDictFind (xs.foldl (fun e y => pyDictSet e y (coercePath (getattr y))) d) x
        = some (coercePath (getattr x)) := by
  intro xs
  induction xs with
  | nil =>
    intro d x h
    rcases h with h | h
    · simp at h
    · simpa using h
  | cons y ys ih =>
    intro d x h
    simp only [List.foldl_cons]
    apply ih
    rcases h with h | h
    · rcases List.mem_cons.mp h with rfl | hmem
      · right
        exact pyDictSet_find_same d x (coercePath (getattr x))
      · left
        exact hmem
    · by_cases hxy : x = y
      · subst hxy
        right
        exact pyDictSet_find_same d x (coercePath (getattr x))
      · right
        rw [pyDictSet_find_other d y x (coercePath (getattr y)) hxy]
        exact h

theorem buildParams_find (getattr : Str → PyVal) (x : Str) (hx : x ∈ variablesList) :
    pyDictFind (buildParams getattr) x = some (coercePath (getattr x)) :=
  foldl_find getattr variablesList .dnil x (Or.inl hx)

/--
C8: for every configuration (any assignment of values to the
persisted fields, including arbitrarily nested containers with
non-encodable leaves), serialization never fails; every
filesystem-path-typed field is coerced to its string form in the
output; and every field whose value cannot be JSON-encoded is
replaced by the sentinel string `"json encode error"` instead of
raising.
-/
theorem c8_save_variables_never_fails (getattr : Str → PyVal) :
    exceptOk (Experiment.save_variables getattr) = true ∧
    (∀ x s, x ∈ variablesList → getattr x = .ppath s →
      jsonField (Experiment.save_variables getattr) x = some (.jstr s)) ∧
    (∀ x t, x ∈ variablesList → getattr x = .pobj t →
      jsonField (Experiment.save_variables getattr) x
        = some (.jstr (str "json encode error"))) := by
  obtain ⟨jd, hjd⟩ := dumpsD_sentinel_ok (buildParams getattr)
  have hsv : Experiment.save_variables getattr = .ok (.jobj jd) := by
    simp only [Experiment.save_variables, dumps, hjd, bind_ok_eq]
  refine ⟨by simp [hsv, exceptOk], ?_, ?_⟩
  · intro x s hx hpath
    have hfind : pyDictFind (buildParams getattr) x = some (.pstr s) := by
      have := buildParams_find getattr x hx
      rw [hpath] at this
      exact this
    obtain ⟨jv, hjf, hdv⟩ := dumpsD_find (buildParams getattr) jd hjd x (.pstr s) hfind
    have : jv = .jstr s := by
      simp only [dumps] at hdv
      cases hdv
      rfl
    subst this
    simp [hsv, jsonField, hjf]
  · intro x t hx hobj
    have hfind : pyDictFind (buildParams getattr) x = some (.pobj t) := by
      have := buildParams_find getattr x hx
      rw [hobj] at this
      exact this
    obtain ⟨jv, hjf, hdv⟩ := dumpsD_find (buildParams getattr) jd hjd x (.pobj t) hfind
    have : jv = .jstr (str "json encode error") := by
      simp only [dumps, jsonSentinel] at hdv
      cases hdv
      rfl
    subst this
    simp [hsv, jsonField, hjf]


/-- A concrete configuration for the `c8` witness: a `Path`-valued
`model_path`, a non-encodable `train_kwargs`, strings elsewhere. -/
def sampleGetattr : Str → PyVal := fun x =>
  if x = str "model_path" then .ppath (str "experiments/experiment_0/VGG/CIFAR10/vgg")
  else if x = str "train_kwargs" then .pobj (str "hyperparameter dict with callables")
  else .pstr (str "value")

/-- Witness for `c8_save_variables_never_fails` at `sampleGetattr`. -/
theorem c8_save_variables_never_fails_witness :
    exceptOk (Experiment.save_variables sampleGetattr) = true ∧
    jsonField (Experiment.save_variables sampleGetattr) (str "model_path")
      = some (.jstr (str "experiments/experiment_0/VGG/CIFAR10/vgg")) ∧
    jsonField (Experiment.save_variables sampleGetattr) (str "train_kwargs")
      = some (.jstr (str "json encode error")) :=
  ⟨(c8_save_variables_never_fails sampleGetattr).1,
   (c8_save_variables_never_fails sampleGetattr).2.1 (str "model_path")
     (str "experiments/experiment_0/VGG/CIFAR10/vgg") (by decide) rfl,
   (c8_save_variables_never_fails sampleGetattr).2.2 (str "train_kwargs")
     (str "hyperparameter dict with callables") (by decide) rfl⟩
